import Mathlib

/-!
Shallow embedding of `src/app.py` (llm-local-client): a FastAPI chat
application over a SQLite database, with an interaction-client adapter
(`_run_interaction`) wrapping the hosted-model API.

Modelling conventions:
* SQLite state is a `DB` record of three row lists plus the AUTOINCREMENT
  counters; rows are kept in insertion (id) order.
* Each `with _get_db() as conn:` block of the Python `sqlite3` module commits
  on normal exit and rolls back when an exception escapes the block; endpoint
  functions therefore return the original state on every error raised inside
  such a block.
* Python strings are modelled as Lean `String` (sequences of code points);
  `str.strip()` is `pyStrip` (ASCII whitespace, which covers every character
  the claims exercise) and slicing `s[:n]` is `pyTake`.
* The external `genai` client is an `Oracle`: per-call-kind streams of
  outcomes, consumed in order; an exhausted stream behaves as a raised
  exception.  `_run_interaction` additionally returns the trace of outgoing
  API calls so that theorems can speak about the content actually sent.
* The schema is the migrated one (the `archived` column exists), which is
  what `_init_db` guarantees before any route runs.
-/

namespace LlmLocalClient

/-! ### Python string primitives -/

def isPySpace (c : Char) : Bool :=
  c == ' ' || c == '\t' || c == '\n' || c == '\r' || c == Char.ofNat 11 || c == Char.ofNat 12

def stripChars (l : List Char) : List Char :=
  ((l.dropWhile isPySpace).reverse.dropWhile isPySpace).reverse

/-- Python `str.strip()` (whitespace at both ends removed). -/
def pyStrip (s : String) : String := String.mk (stripChars s.data)

/-- Python slicing `s[:n]`. -/
def pyTake (s : String) (n : Nat) : String := String.mk (s.data.take n)

/-- Python truthiness of an optional string: `None` and `""` are falsy. -/
def pyFalsy : Option String → Bool
  | none => true
  | some s => s == ""

/-- Python `s.startswith(pre)` over code points. -/
def pyStartsWith (s pre : String) : Bool := pre.data.isPrefixOf s.data

/-! ### Database rows and state -/

structure ModelRow where
  id : Nat
  name : String
  created_at : String
deriving DecidableEq

structure ChatRow where
  id : Nat
  title : String
  interaction_id : String
  last_model : Option String
  archived : Bool
  created_at : String
  updated_at : String
deriving DecidableEq

structure MessageRow where
  id : Nat
  chat_id : Nat
  role : String
  content : String
  created_at : String
deriving DecidableEq

structure DB where
  models : List ModelRow
  chats : List ChatRow
  messages : List MessageRow
  nextModelId : Nat
  nextChatId : Nat
  nextMessageId : Nat
deriving DecidableEq

/-! ### JSON values returned by the route layer -/

inductive JVal where
  | s (v : String)
  | n (v : Nat)
  | null
  | arr (items : List JVal)
  | obj (fields : List (String × JVal))

def jopt : Option String → JVal
  | none => JVal.null
  | some v => JVal.s v

/-- Errors raised by a handler: an `HTTPException` with status and detail, or
an uncaught generic Python exception (from the external client). -/
inductive PyErr where
  | http (status : Nat) (detail : String)
  | exn
deriving DecidableEq

def exceptOk {α : Type} : Except PyErr α → Bool
  | Except.ok _ => true
  | Except.error _ => false

def httpStatus {α : Type} : Except PyErr α → Option Nat
  | Except.error (PyErr.http s _) => some s
  | Except.error PyErr.exn => none
  | Except.ok _ => none

/-! ### Row dictionaries (`dict(row)` for each SELECT column list) -/

def modelDict (m : ModelRow) : List (String × JVal) :=
  [("id", JVal.n m.id), ("name", JVal.s m.name), ("created_at", JVal.s m.created_at)]

/-- Columns `id, title, interaction_id, last_model, created_at, updated_at`
(the SELECT used by `get_chat`, `rename_chat` and `send_message`). -/
def chatDictDetail (c : ChatRow) : List (String × JVal) :=
  [("id", JVal.n c.id), ("title", JVal.s c.title),
   ("interaction_id", JVal.s c.interaction_id), ("last_model", jopt c.last_model),
   ("created_at", JVal.s c.created_at), ("updated_at", JVal.s c.updated_at)]

/-- Columns `id, title, interaction_id, last_model, archived, created_at,
updated_at` (the SELECT used by `_fetch_chats`, `archive_chat`,
`restore_chat` and `list_archived_chats`; `archived` is a 0/1 integer). -/
def chatDictList (c : ChatRow) : List (String × JVal) :=
  [("id", JVal.n c.id), ("title", JVal.s c.title),
   ("interaction_id", JVal.s c.interaction_id), ("last_model", jopt c.last_model),
   ("archived", JVal.n (if c.archived then 1 else 0)),
   ("created_at", JVal.s c.created_at), ("updated_at", JVal.s c.updated_at)]

def messageDict (m : MessageRow) : List (String × JVal) :=
  [("id", JVal.n m.id), ("chat_id", JVal.n m.chat_id), ("role", JVal.s m.role),
   ("content", JVal.s m.content), ("created_at", JVal.s m.created_at)]

/-! ### Query helpers (`_fetch_*`) -/

/-- Stable insertion (ascending by `id`) implementing `ORDER BY id`. -/
def insertById (m : MessageRow) : List MessageRow → List MessageRow
  | [] => [m]
  | x :: xs => if m.id < x.id then m :: x :: xs else x :: insertById m xs

def sortById (l : List MessageRow) : List MessageRow := l.foldr insertById []

/-- `_fetch_messages`: rows of a chat, ordered by id ascending. -/
def fetchMessages (db : DB) (chat_id : Nat) : List MessageRow :=
  sortById (db.messages.filter (fun m => m.chat_id == chat_id))

/-- Stable insertion (descending by `updated_at`, SQLite TEXT comparison)
implementing `ORDER BY updated_at DESC`. -/
def insertByUpdated (c : ChatRow) : List ChatRow → List ChatRow
  | [] => [c]
  | x :: xs =>
      if x.updated_at < c.updated_at then c :: x :: xs
      else x :: insertByUpdated c xs

def sortByUpdatedDesc (l : List ChatRow) : List ChatRow :=
  l.foldl (fun acc c => insertByUpdated c acc) []

/-- Rows selected by `_fetch_chats` with `include_archived = False` (the
migrated schema has the `archived` column): `WHERE archived = 0 ORDER BY
updated_at DESC`. -/
def fetchChatRows (db : DB) : List ChatRow :=
  sortByUpdatedDesc (db.chats.filter (fun c => !c.archived))

/-! ### The external client oracle -/

/-- Result object of `client.interactions.create`: the interaction `id`
(possibly `None`) and `outputs` (possibly absent/`None`, else a list of
outputs whose `.text` may be `None`). -/
structure Interaction where
  iid : Option String
  outputs : Option (List (Option String))

/-- Outcomes of the external client calls, one stream per call kind,
consumed in order.  `Except.error ()` models a raised exception; an
exhausted stream also behaves as an exception. -/
structure Oracle where
  sessions : List (Except Unit String)
  sends : List (Except Unit (Option String))
  gens : List (Except Unit (Option String))
  hasInteractions : Bool
  inters : List (Except Unit Interaction)

def takeSession (o : Oracle) : Except Unit String × Oracle :=
  match o.sessions with
  | [] => (Except.error (), o)
  | r :: rest => (r, { o with sessions := rest })

def takeSend (o : Oracle) : Except Unit (Option String) × Oracle :=
  match o.sends with
  | [] => (Except.error (), o)
  | r :: rest => (r, { o with sends := rest })

def takeGen (o : Oracle) : Except Unit (Option String) × Oracle :=
  match o.gens with
  | [] => (Except.error (), o)
  | r :: rest => (r, { o with gens := rest })

def takeInter (o : Oracle) : Except Unit Interaction × Oracle :=
  match o.inters with
  | [] => (Except.error (), o)
  | r :: rest => (r, { o with inters := rest })

/-- Outgoing calls to the hosted-model API, recorded for the trace. -/
inductive ApiCall where
  | createSession (agent : String)
  | sendMessage (session : String) (message : String)
  | generateContent (model : String) (prompt : String)
  | interactionsCreate (model : String) (input : String) (prev : Option String)
deriving DecidableEq

/-! ### The interaction adapter (`_run_interaction`) -/

/-- History-window transcript builder shared by every path of
`_run_interaction`: the last 20 `(role, text)` turns as `User:`/`Assistant:`
labelled lines, then a final `User:` line with the new content. -/
def buildTranscript (history : List (String × String)) (content : String) : String :=
  let window := history.drop (history.length - 20)
  let turns := window.map (fun rt => (if rt.1 == "user" then "User" else "Assistant") ++ ": " ++ rt.2)
  String.intercalate "\n" (turns ++ ["User: " ++ content])

/-- Prompt built by the stateless paths (`prompt = content; if history: ...`). -/
def buildPrompt (history : List (String × String)) (content : String) : String :=
  if history.isEmpty then content else buildTranscript history content

/-- Final check of `_run_interaction`: raise 502 on an empty or
whitespace-only reply, otherwise return `(text, interaction_id)`. -/
def finish (text iid : String) (calls : List ApiCall) :
    Except PyErr (String × String) × List ApiCall :=
  if pyStrip text == "" then
    (Except.error (PyErr.http 502 "Gemini returned an empty response."), calls)
  else (Except.ok (text, iid), calls)

/-- Stateless final fallback of the agent path (`client.models.generate_content`
with the history-injected prompt); a failure here is uncaught. -/
def agentFallback (o : Oracle) (model_name content : String)
    (history : List (String × String)) (calls : List ApiCall) :
    Except PyErr (String × String) × List ApiCall :=
  let prompt := buildPrompt history content
  match takeGen o with
  | (Except.error _, _) => (Except.error PyErr.exn, calls ++ [ApiCall.generateContent model_name prompt])
  | (Except.ok t, _) => (Except.ok (t.getD "", ""), calls ++ [ApiCall.generateContent model_name prompt])

/-- Agent-path send with the retry chain: try `send_message`; on failure
create a fresh session and resend the same prepared message once; on a
second failure fall back to the stateless call. -/
def agentSend (o : Oracle) (model_name content sid msg : String)
    (history : List (String × String)) (calls : List ApiCall) :
    Except PyErr (String × String) × List ApiCall :=
  match takeSend o with
  | (Except.ok t, _) => (Except.ok (t.getD "", sid), calls ++ [ApiCall.sendMessage sid msg])
  | (Except.error _, o1) =>
    let calls1 := calls ++ [ApiCall.sendMessage sid msg]
    match takeSession o1 with
    | (Except.ok sid2, o2) =>
      match takeSend o2 with
      | (Except.ok t, _) =>
          (Except.ok (t.getD "", sid2),
           calls1 ++ [ApiCall.createSession model_name, ApiCall.sendMessage sid2 msg])
      | (Except.error _, o3) =>
          agentFallback o3 model_name content history
            (calls1 ++ [ApiCall.createSession model_name, ApiCall.sendMessage sid2 msg])
    | (Except.error _, o2) =>
        agentFallback o2 model_name content history
          (calls1 ++ [ApiCall.createSession model_name])

/-- Agent branch of `_run_interaction` (`model_name.startswith("deep-research")`). -/
def agentPath (o : Oracle) (model_name content : String) (prev : Option String)
    (history : List (String × String)) :
    Except PyErr (String × String) × List ApiCall :=
  let msg :=
    if pyFalsy prev && !history.isEmpty then buildTranscript history content else content
  if pyFalsy prev then
    match takeSession o with
    | (Except.error _, _) => (Except.error PyErr.exn, [ApiCall.createSession model_name])
    | (Except.ok sid, o1) =>
        agentSend o1 model_name content sid msg history [ApiCall.createSession model_name]
  else
    agentSend o model_name content (prev.getD "") msg history []

/-- Non-agent branch of `_run_interaction`: the interactions API when the
client exposes it (falling back to `generate_content`, uncaught, on any
failure), else the plain history-prompt call. -/
def plainPath (o : Oracle) (model_name content : String) (prev : Option String)
    (history : List (String × String)) :
    Except PyErr (String × String) × List ApiCall :=
  if o.hasInteractions then
    let prepared :=
      if pyFalsy prev && !history.isEmpty then buildTranscript history content else content
    let kwPrev := if pyFalsy prev then none else prev
    match takeInter o with
    | (Except.ok it, _) =>
      let text :=
        match it.outputs with
        | none => ""
        | some [] => ""
        | some outs => ((outs.getLast?).getD none).getD ""
      (Except.ok (text, it.iid.getD ""), [ApiCall.interactionsCreate model_name prepared kwPrev])
    | (Except.error _, o1) =>
      let prompt := buildPrompt history content
      match takeGen o1 with
      | (Except.error _, _) =>
          (Except.error PyErr.exn,
           [ApiCall.interactionsCreate model_name prepared kwPrev,
            ApiCall.generateContent model_name prompt])
      | (Except.ok t, _) =>
          (Except.ok (t.getD "", ""),
           [ApiCall.interactionsCreate model_name prepared kwPrev,
            ApiCall.generateContent model_name prompt])
  else
    let prompt := buildPrompt history content
    match takeGen o with
    | (Except.error _, _) => (Except.error PyErr.exn, [ApiCall.generateContent model_name prompt])
    | (Except.ok t, _) => (Except.ok (t.getD "", ""), [ApiCall.generateContent model_name prompt])

/-- Apply the final empty-response check of `_run_interaction` to the outcome
of whichever branch ran (errors pass through unchanged). -/
def finishPair : Except PyErr (String × String) × List ApiCall →
    Except PyErr (String × String) × List ApiCall
  | (Except.error e, calls) => (Except.error e, calls)
  | (Except.ok (text, iid), calls) => finish text iid calls

/-- `_run_interaction(model_name, content, previous_interaction_id, history)`
with the API-key environment flag and the client oracle made explicit;
returns the handler result and the trace of outgoing API calls. -/
def runInteraction (apiKey : Bool) (o : Oracle) (model_name content : String)
    (prev : Option String) (history : List (String × String)) :
    Except PyErr (String × String) × List ApiCall :=
  if !apiKey then
    (Except.error (PyErr.http 500 "Missing GEMINI_API_KEY (or GOOGLE_API_KEY) environment variable."), [])
  else
    finishPair
      (if pyStartsWith model_name "deep-research" then agentPath o model_name content prev history
       else plainPath o model_name content prev history)

/-! ### Route layer

Each endpoint takes the database state (and any ambient inputs: the current
timestamp string, payload fields, the API-key flag, the client oracle) and
returns its HTTP result together with the committed state.  On an error
raised inside a `with` block the state is the pre-block one (rollback). -/

/-- `GET /api/models`. -/
def list_models (db : DB) : List (List (String × JVal)) :=
  db.models.map modelDict

/-- `POST /api/models`. -/
def create_model (db : DB) (payloadName : Option String) (now : String) :
    Except PyErr (List (String × JVal)) × DB :=
  let name := pyStrip (payloadName.getD "")
  if name == "" then (Except.error (PyErr.http 400 "Model name is required."), db)
  else if db.models.any (fun m => m.name == name) then
    -- UNIQUE(name) violation: sqlite3.IntegrityError, translated to 400
    (Except.error (PyErr.http 400 "Model already exists."), db)
  else
    (Except.ok [("id", JVal.n db.nextModelId), ("name", JVal.s name), ("created_at", JVal.s now)],
     { db with models := db.models ++ [⟨db.nextModelId, name, now⟩],
               nextModelId := db.nextModelId + 1 })

/-- `PUT /api/models/{model_id}`.  The UPDATE raises `IntegrityError` exactly
when it would write a name held by a different row (so it must match the
target row at all); a statement matching no row yields rowcount 0 → 404. -/
def update_model (db : DB) (model_id : Nat) (payloadName : Option String) :
    Except PyErr (List (String × JVal)) × DB :=
  let name := pyStrip (payloadName.getD "")
  if name == "" then (Except.error (PyErr.http 400 "Model name is required."), db)
  else if db.models.any (fun m => m.id == model_id) &&
          db.models.any (fun m => !(m.id == model_id) && m.name == name) then
    (Except.error (PyErr.http 400 "Model already exists."), db)
  else if db.models.any (fun m => m.id == model_id) then
    (Except.ok [("id", JVal.n model_id), ("name", JVal.s name)],
     { db with models := db.models.map (fun m => if m.id == model_id then { m with name := name } else m) })
  else (Except.error (PyErr.http 404 "Model not found."), db)

/-- `DELETE /api/models/{model_id}`. -/
def delete_model (db : DB) (model_id : Nat) : Except PyErr Bool × DB :=
  if db.models.any (fun m => m.id == model_id) then
    (Except.ok true, { db with models := db.models.filter (fun m => !(m.id == model_id)) })
  else (Except.error (PyErr.http 404 "Model not found."), db)

/-- `GET /api/chats` (`_fetch_chats` with `include_archived = False`). -/
def list_chats (db : DB) : List (List (String × JVal)) :=
  (fetchChatRows db).map chatDictList

/-- `POST /api/chats`. -/
def create_chat (db : DB) (payloadTitle payloadModel : Option String) (now : String) :
    List (String × JVal) × DB :=
  let base := if pyFalsy payloadTitle then "New Chat" else payloadTitle.getD ""
  let stripped := pyStrip base
  let title := if stripped == "" then "New Chat" else stripped
  let row : ChatRow :=
    ⟨db.nextChatId, title, "", payloadModel, false, now, now⟩
  ([("id", JVal.n db.nextChatId), ("title", JVal.s title), ("interaction_id", JVal.s ""),
    ("last_model", jopt payloadModel), ("created_at", JVal.s now), ("updated_at", JVal.s now)],
   { db with chats := db.chats ++ [row], nextChatId := db.nextChatId + 1 })

/-- `GET /api/chats/{chat_id}` (read-only). -/
def get_chat (db : DB) (chat_id : Nat) :
    Except PyErr (List (String × JVal) × List (List (String × JVal))) :=
  match db.chats.find? (fun c => c.id == chat_id) with
  | none => Except.error (PyErr.http 404 "Chat not found.")
  | some c => Except.ok (chatDictDetail c, (fetchMessages db chat_id).map messageDict)

/-- `DELETE /api/chats/{chat_id}`.  The messages DELETE executes first; when
the chats DELETE touches no row, the `HTTPException` escapes the `with`
block and the connection rolls the uncommitted messages DELETE back. -/
def delete_chat (db : DB) (chat_id : Nat) : Except PyErr Bool × DB :=
  let pending :=
    { db with messages := db.messages.filter (fun m => !(m.chat_id == chat_id)) }
  if (pending.chats.filter (fun c => c.id == chat_id)).length == 0 then
    (Except.error (PyErr.http 404 "Chat not found."), db)
  else
    (Except.ok true, { pending with chats := pending.chats.filter (fun c => !(c.id == chat_id)) })

/-- `PUT /api/chats/{chat_id}/title`. -/
def rename_chat (db : DB) (chat_id : Nat) (payloadTitle : Option String) (now : String) :
    Except PyErr (List (String × JVal)) × DB :=
  let title := pyStrip (payloadTitle.getD "")
  if title == "" then (Except.error (PyErr.http 400 "Title is required."), db)
  else if 200 < title.length then
    (Except.error (PyErr.http 400 "Title too long (max 200 characters)."), db)
  else if db.chats.any (fun c => c.id == chat_id) then
    let db' :=
      { db with chats := db.chats.map (fun c =>
          if c.id == chat_id then { c with title := title, updated_at := now } else c) }
    ((db'.chats.find? (fun c => c.id == chat_id)).map (fun c => Except.ok (chatDictDetail c))
        |>.getD (Except.ok []),
     db')
  else (Except.error (PyErr.http 404 "Chat not found."), db)

/-- `PUT /api/chats/{chat_id}/archive`. -/
def archive_chat (db : DB) (chat_id : Nat) (now : String) :
    Except PyErr (List (String × JVal)) × DB :=
  if db.chats.any (fun c => c.id == chat_id) then
    let db' :=
      { db with chats := db.chats.map (fun c =>
          if c.id == chat_id then { c with archived := true, updated_at := now } else c) }
    ((db'.chats.find? (fun c => c.id == chat_id)).map (fun c => Except.ok (chatDictList c))
        |>.getD (Except.ok []),
     db')
  else (Except.error (PyErr.http 404 "Chat not found."), db)

/-- `PUT /api/chats/{chat_id}/restore`. -/
def restore_chat (db : DB) (chat_id : Nat) (now : String) :
    Except PyErr (List (String × JVal)) × DB :=
  if db.chats.any (fun c => c.id == chat_id) then
    let db' :=
      { db with chats := db.chats.map (fun c =>
          if c.id == chat_id then { c with archived := false, updated_at := now } else c) }
    ((db'.chats.find? (fun c => c.id == chat_id)).map (fun c => Except.ok (chatDictList c))
        |>.getD (Except.ok []),
     db')
  else (Except.error (PyErr.http 404 "Chat not found."), db)

/-- `GET /api/chats/archived/list`. -/
def list_archived_chats (db : DB) : List (List (String × JVal)) :=
  (sortByUpdatedDesc (db.chats.filter (fun c => c.archived))).map chatDictList

/-- Result of `POST /api/chats/{chat_id}/messages`: the HTTP result (message
dict and chat dict on success), the committed state, and the trace of
outgoing API calls. -/
structure SendResult where
  result : Except PyErr (List (String × JVal) × List (String × JVal))
  db : DB
  calls : List ApiCall

/-- `INSERT INTO messages (chat_id, role, content, created_at)` with the next
AUTOINCREMENT id. -/
def insertMessage (db : DB) (chat_id : Nat) (role content now : String) : DB :=
  { db with messages := db.messages ++ [⟨db.nextMessageId, chat_id, role, content, now⟩],
            nextMessageId := db.nextMessageId + 1 }

/-- The two chat UPDATEs run after a successful reply, applied to the chat row. -/
def applyChatUpdate (title new_iid model_name now2 : String) (c : ChatRow) : ChatRow :=
  { c with title := title, interaction_id := new_iid,
           last_model := some model_name, updated_at := now2 }

/-- `UPDATE chats SET ... WHERE id = chat_id` as a per-row map. -/
def updateChats (db : DB) (chat_id : Nat) (f : ChatRow → ChatRow) : DB :=
  { db with chats := db.chats.map (fun c => if c.id == chat_id then f c else c) }

/-- Title rewrite on the first reply: `content[:60].strip() or "New Chat"`,
applied only while the stored title is still `"New Chat"`. -/
def newChatTitle (oldTitle content : String) : String :=
  if oldTitle == "New Chat" then
    (if pyStrip (pyTake content 60) == "" then "New Chat" else pyStrip (pyTake content 60))
  else oldTitle

/-- Post-validation body of `send_message`: commit the user message, fetch
the full history (which now includes that user message), run the adapter,
then on success commit the model message and the chat-row updates. -/
def sendCore (db : DB) (apiKey : Bool) (o : Oracle) (chat_id : Nat) (chat_row : ChatRow)
    (content model_name now1 now2 : String) : SendResult :=
  let db1 := insertMessage db chat_id "user" content now1
  let previous := if chat_row.interaction_id == "" then none else some chat_row.interaction_id
  let history := (fetchMessages db1 chat_id).map (fun m => (m.role, m.content))
  match runInteraction apiKey o model_name content previous history with
  | (Except.error e, calls) => ⟨Except.error e, db1, calls⟩
  | (Except.ok (reply_text, new_iid), calls) =>
    let db2 := insertMessage db1 chat_id "model" reply_text now2
    let db3 := updateChats db2 chat_id
        (applyChatUpdate (newChatTitle chat_row.title content) new_iid model_name now2)
    ⟨Except.ok (((fetchMessages db3 chat_id).getLast?.map messageDict).getD [],
                ((db3.chats.find? (fun c => c.id == chat_id)).map chatDictDetail).getD []),
     db3, calls⟩

/-- `POST /api/chats/{chat_id}/messages` (`send_message`). -/
def send_message (db : DB) (apiKey : Bool) (o : Oracle) (chat_id : Nat)
    (payloadContent payloadModel : Option String) (now1 now2 : String) : SendResult :=
  let content := pyStrip (payloadContent.getD "")
  let model_name := pyStrip (payloadModel.getD "")
  if content == "" then ⟨Except.error (PyErr.http 400 "Message content is required."), db, []⟩
  else if model_name == "" then ⟨Except.error (PyErr.http 400 "Model name is required."), db, []⟩
  else
    match db.chats.find? (fun c => c.id == chat_id) with
    | none => ⟨Except.error (PyErr.http 404 "Chat not found."), db, []⟩
    | some chat_row => sendCore db apiKey o chat_id chat_row content model_name now1 now2

/-! ### Spec-side refinement target -/

/-- Modelled from the spec: for a fresh agent session the outgoing content is
the last 20 PRIOR history turns formatted as labelled lines, followed by
exactly one final `User:` line carrying the new message (the new message
appearing only as that final line). -/
def specOutgoingTranscript (priorTurns : List (String × String)) (content : String) : String :=
  let window := priorTurns.drop (priorTurns.length - 20)
  String.intercalate "\n"
    (window.map (fun rt => (if rt.1 == "user" then "User" else "Assistant") ++ ": " ++ rt.2)
      ++ ["User: " ++ content])

/-! ### Concrete fixtures -/

def fixDbOrphan : DB := ⟨[], [], [⟨1, 7, "user", "x", "T0"⟩], 1, 1, 2⟩

def fixDbNew : DB := ⟨[], [⟨1, "New Chat", "", none, false, "T0", "T0"⟩], [], 1, 2, 1⟩

def fixDbChat : DB := ⟨[], [⟨1, "Chat", "", none, false, "T0", "T0"⟩], [], 1, 2, 1⟩

def fixDbHist : DB := ⟨[], [⟨1, "Chat", "", none, false, "T0", "T0"⟩],
  [⟨1, 1, "user", "hi", "T0"⟩, ⟨2, 1, "model", "yo", "T0"⟩], 1, 2, 3⟩

def fixDbArch : DB := ⟨[], [⟨1, "Arch", "", none, true, "t0", "t0"⟩], [], 1, 2, 1⟩

def fixDbModel : DB := ⟨[⟨1, "a", "T0"⟩], [], [], 2, 1, 1⟩

def fixDbModels2 : DB := ⟨[⟨1, "a", "T0"⟩, ⟨2, "b", "T0"⟩], [], [], 3, 1, 1⟩

def fixOracleGen : Oracle := ⟨[], [], [Except.ok (some "reply")], false, []⟩

def fixOracleAgentOk : Oracle := ⟨[Except.ok "S"], [Except.ok (some "reply")], [], false, []⟩

def fixOracleFail2 : Oracle :=
  ⟨[Except.ok "S", Except.ok "S2"], [Except.error (), Except.error ()],
   [Except.ok (some "hello")], false, []⟩

def fixOracleWs : Oracle := ⟨[Except.ok "S"], [Except.ok (some "  ")], [], false, []⟩

def fixOracleEmpty : Oracle := ⟨[], [], [], false, []⟩

/-! ### Supporting lemmas -/

theorem insertById_append_big (m u : MessageRow) (s : List MessageRow)
    (h : m.id < u.id) : insertById m (s ++ [u]) = insertById m s ++ [u] := by
  induction s with
  | nil => simp [insertById, h]
  | cons x xs ih =>
    by_cases hx : m.id < x.id
    · simp [insertById, hx]
    · simp [insertById, hx, ih]

theorem sortById_cons (m : MessageRow) (l : List MessageRow) :
    sortById (m :: l) = insertById m (sortById l) := rfl

theorem sortById_append_max (l : List MessageRow) (u : MessageRow)
    (h : ∀ m ∈ l, m.id < u.id) : sortById (l ++ [u]) = sortById l ++ [u] := by
  induction l with
  | nil => simp [sortById, insertById]
  | cons m l ih =>
    have hm : m.id < u.id := h m (by simp)
    have ih' := ih (fun x hx => h x (by simp [hx]))
    rw [List.cons_append, sortById_cons, ih', insertById_append_big _ _ _ hm, sortById_cons]

/-- Committing one fresh message (with the next AUTOINCREMENT id) appends it
at the end of the chat's ordered history. -/
theorem fetchMessages_append_new (msgs : List MessageRow) (u : MessageRow) (chat_id : Nat)
    (hcid : (u.chat_id == chat_id) = true)
    (hmax : ∀ m ∈ msgs, m.id < u.id) :
    sortById ((msgs ++ [u]).filter (fun m => m.chat_id == chat_id))
      = sortById (msgs.filter (fun m => m.chat_id == chat_id)) ++ [u] := by
  rw [List.filter_append]
  simp only [List.filter, hcid]
  exact sortById_append_max _ u (fun m hm => hmax m (List.mem_of_mem_filter hm))

/-- `find?` on the per-id row update used by the UPDATE statements. -/
theorem find?_map_update (l : List ChatRow) (i : Nat) (f : ChatRow → ChatRow)
    (hid : ∀ c, (f c).id = c.id) :
    (l.map (fun c => if c.id == i then f c else c)).find? (fun c => c.id == i)
      = (l.find? (fun c => c.id == i)).map (fun c => if c.id == i then f c else c) := by
  have hfun : ((fun c : ChatRow => c.id == i) ∘ fun c => if c.id == i then f c else c)
      = (fun c : ChatRow => c.id == i) := by
    funext c
    by_cases h : (c.id == i) = true
    · simp [Function.comp, h, hid]
    · simp [Function.comp, h]
  rw [List.find?_map, hfun]

theorem any_insertByUpdated (c : ChatRow) (l : List ChatRow) (p : ChatRow → Bool) :
    (insertByUpdated c l).any p = (p c || l.any p) := by
  induction l with
  | nil => simp [insertByUpdated]
  | cons x xs ih =>
    by_cases h : x.updated_at < c.updated_at
    · simp [insertByUpdated, h]
    · simp [insertByUpdated, h, ih, Bool.or_left_comm]

theorem any_sortByUpdatedDesc (l : List ChatRow) (p : ChatRow → Bool) :
    (sortByUpdatedDesc l).any p = l.any p := by
  suffices h : ∀ acc : List ChatRow,
      (l.foldl (fun a c => insertByUpdated c a) acc).any p = (acc.any p || l.any p) by
    simpa [sortByUpdatedDesc] using h []
  induction l with
  | nil => simp
  | cons x xs ih =>
    intro acc
    simp [List.foldl_cons, ih, any_insertByUpdated, Bool.or_left_comm, Bool.or_assoc]

theorem dropWhile_append_single (p : Char → Bool) (xs : List Char) (a : Char)
    (ha : p a = false) :
    List.dropWhile p (xs ++ [a]) = List.dropWhile p xs ++ [a] := by
  induction xs with
  | nil => simp [List.dropWhile, ha]
  | cons x xs ih =>
    by_cases h : p x = true
    · simp [List.dropWhile_cons, h, ih]
    · simp [List.dropWhile_cons, h]

/-- A stripped character list is empty or starts with a non-space character. -/
theorem stripChars_eq_cons (l : List Char) :
    stripChars l = [] ∨ ∃ a t, stripChars l = a :: t ∧ isPySpace a = false := by
  unfold stripChars
  cases hd : List.dropWhile isPySpace l with
  | nil => left; simp
  | cons a rest =>
    right
    have ha : isPySpace a = false := by
      have hh := List.head?_dropWhile_not isPySpace l
      rw [hd] at hh
      simpa using hh
    refine ⟨a, (List.dropWhile isPySpace rest.reverse).reverse, ?_, ha⟩
    rw [List.reverse_cons, dropWhile_append_single _ _ _ ha]
    simp

theorem stripChars_cons_not_space (a : Char) (l : List Char) (ha : isPySpace a = false) :
    ∃ t, stripChars (a :: l) = a :: t := by
  refine ⟨(List.dropWhile isPySpace l.reverse).reverse, ?_⟩
  unfold stripChars
  rw [List.dropWhile_cons, if_neg (by simp [ha])]
  rw [List.reverse_cons, dropWhile_append_single _ _ _ ha]
  simp

theorem stripChars_length_le (l : List Char) : (stripChars l).length ≤ l.length := by
  unfold stripChars
  calc ((( l.dropWhile isPySpace).reverse.dropWhile isPySpace).reverse).length
      = ((l.dropWhile isPySpace).reverse.dropWhile isPySpace).length := List.length_reverse _
    _ ≤ (l.dropWhile isPySpace).reverse.length := (List.dropWhile_sublist _).length_le
    _ = (l.dropWhile isPySpace).length := List.length_reverse _
    _ ≤ l.length := (List.dropWhile_sublist _).length_le

theorem pyStrip_length_le (s : String) : (pyStrip s).length ≤ s.length :=
  stripChars_length_le s.data

theorem pyTake_length_le (s : String) (n : Nat) : (pyTake s n).length ≤ n := by
  show (s.data.take n).length ≤ n
  rw [List.length_take]
  exact Nat.min_le_left _ _

/-- Stripping a 60-character prefix of an already-stripped nonempty string is
nonempty (its first character is not whitespace). -/
theorem pyStrip_data (s : String) : (pyStrip s).data = stripChars s.data := rfl

theorem pyStrip_pyTake_pyStrip_ne (y : String) (n : Nat) (hn : 0 < n)
    (h : ¬ pyStrip y = "") : ¬ pyStrip (pyTake (pyStrip y) n) = "" := by
  rcases stripChars_eq_cons y.data with hnil | ⟨a, t, heq, ha⟩
  · exact absurd (by unfold pyStrip; rw [hnil]) h
  · have hdata : (pyStrip y).data = a :: t := (pyStrip_data y).trans heq
    obtain ⟨k, rfl⟩ : ∃ k, n = k + 1 := ⟨n - 1, (Nat.succ_pred_eq_of_pos hn).symm⟩
    have htake : (pyTake (pyStrip y) (k + 1)).data = a :: t.take k := by
      unfold pyTake
      rw [hdata]
      simp
    obtain ⟨t', ht'⟩ := stripChars_cons_not_space a (t.take k) ha
    intro hcon
    have h2 := congrArg String.data hcon
    rw [pyStrip_data, htake, show ("" : String).data = [] from rfl, ht'] at h2
    cases h2

theorem finish_blank (t i : String) (calls : List ApiCall) (h : (pyStrip t == "") = true) :
    finish t i calls
      = (Except.error (PyErr.http 502 "Gemini returned an empty response."), calls) := by
  unfold finish
  rw [if_pos h]

theorem finish_ok_inv (t i text iid : String) (calls calls' : List ApiCall)
    (h : finish t i calls = (Except.ok (text, iid), calls')) :
    text = t ∧ iid = i ∧ (pyStrip t == "") = false ∧ calls' = calls := by
  unfold finish at h
  by_cases hs : (pyStrip t == "") = true
  · rw [if_pos hs] at h
    exact absurd (congrArg Prod.fst h) (by simp)
  · rw [if_neg hs] at h
    obtain ⟨h1, h5⟩ := Prod.mk.inj h
    obtain ⟨h2, h3⟩ := Prod.mk.inj (Except.ok.inj h1)
    exact ⟨h2.symm, h3.symm, eq_false_of_ne_true hs, h5.symm⟩

/-- The adapter never succeeds with an empty or whitespace-only reply: every
path ends at the final empty-response check. -/
theorem runInteraction_ok_not_blank (apiKey : Bool) (o : Oracle) (mn content : String)
    (prev : Option String) (history : List (String × String)) (text iid : String)
    (calls : List ApiCall)
    (h : runInteraction apiKey o mn content prev history = (Except.ok (text, iid), calls)) :
    (pyStrip text == "") = false := by
  unfold runInteraction at h
  by_cases hk : (!apiKey) = true
  · rw [if_pos hk] at h
    exact absurd (congrArg Prod.fst h) (by simp)
  · rw [if_neg hk] at h
    rcases hcore : (if pyStartsWith mn "deep-research" then agentPath o mn content prev history
        else plainPath o mn content prev history) with ⟨res, calls0⟩
    rw [hcore] at h
    cases res with
    | error e => exact absurd (congrArg Prod.fst h) (by simp [finishPair])
    | ok p =>
      rcases p with ⟨t0, i0⟩
      rw [show finishPair (Except.ok (t0, i0), calls0) = finish t0 i0 calls0 from rfl] at h
      obtain ⟨h2, -, h4, -⟩ := finish_ok_inv t0 i0 text iid calls0 calls h
      rw [h2]
      exact h4

theorem finish_snd (t i : String) (calls : List ApiCall) : (finish t i calls).2 = calls := by
  unfold finish
  split <;> rfl

theorem finish_not_blank (t i : String) (calls : List ApiCall)
    (h : (pyStrip t == "") = false) : finish t i calls = (Except.ok (t, i), calls) := by
  unfold finish
  rw [if_neg (by simp [h])]

theorem buildPrompt_of_ne_nil (l : List (String × String)) (c : String)
    (h : l.isEmpty = false) : buildPrompt l c = buildTranscript l c := by
  unfold buildPrompt
  rw [h]
  simp

theorem pyFalsy_previous (s : String) :
    pyFalsy (if s == "" then none else some s) = (s == "") := by
  by_cases h : (s == "") = true
  · rw [if_pos h]
    simp [pyFalsy, h]
  · rw [if_neg (by simp [h])]
    rfl

theorem insertMessage_chats (db : DB) (i : Nat) (r c n : String) :
    (insertMessage db i r c n).chats = db.chats := rfl

theorem updateChats_messages (db : DB) (i : Nat) (f : ChatRow → ChatRow) :
    (updateChats db i f).messages = db.messages := rfl

theorem fetchMessages_insertMessage (db : DB) (chat_id : Nat) (role content now : String)
    (hmax : ∀ m ∈ db.messages, m.id < db.nextMessageId) :
    fetchMessages (insertMessage db chat_id role content now) chat_id
      = fetchMessages db chat_id ++ [⟨db.nextMessageId, chat_id, role, content, now⟩] := by
  simp only [fetchMessages, insertMessage]
  exact fetchMessages_append_new db.messages _ chat_id (by simp) hmax

theorem insertMessage_idBound (db : DB) (chat_id : Nat) (role content now : String)
    (hmax : ∀ m ∈ db.messages, m.id < db.nextMessageId) :
    ∀ m ∈ (insertMessage db chat_id role content now).messages,
      m.id < (insertMessage db chat_id role content now).nextMessageId := by
  intro m hm
  simp only [insertMessage] at hm ⊢
  rcases List.mem_append.mp hm with h | h
  · exact Nat.lt_succ_of_lt (hmax m h)
  · simp at h
    subst h
    exact Nat.lt_succ_self _

/-- Agent path, fresh session, first send succeeds: the message actually sent
is the transcript built from the (nonempty) local history. -/
theorem agent_first_send (o : Oracle) (mn content : String)
    (history : List (String × String)) (sid : String) (t : Option String)
    (sess : List (Except Unit String)) (sends' : List (Except Unit (Option String)))
    (hs : o.sessions = Except.ok sid :: sess)
    (hsend : o.sends = Except.ok t :: sends')
    (hmn : pyStartsWith mn "deep-research" = true)
    (hh : history.isEmpty = false) :
    runInteraction true o mn content none history
      = finish (t.getD "") sid
          [ApiCall.createSession mn,
           ApiCall.sendMessage sid (buildTranscript history content)] := by
  unfold runInteraction
  rw [if_neg (by simp), if_pos hmn]
  simp [agentPath, agentSend, takeSession, takeSend, finishPair, hs, hsend, hh, pyFalsy]

/-- Agent path when both sends fail: exactly one retry with a fresh session
and the same prepared message, then the stateless fallback supplies the
reply with an empty interaction reference. -/
theorem agent_double_failure (o : Oracle) (mn content : String) (prev : Option String)
    (history : List (String × String)) (sid1 sid2 : String) (t : Option String)
    (sess : List (Except Unit String))
    (sends2 gens2 : List (Except Unit (Option String)))
    (hs : o.sessions = Except.ok sid1 :: Except.ok sid2 :: sess)
    (hsend : o.sends = Except.error () :: Except.error () :: sends2)
    (hgen : o.gens = Except.ok t :: gens2)
    (hmn : pyStartsWith mn "deep-research" = true) :
    runInteraction true o mn content prev history
      = finish (t.getD "") ""
          ((if pyFalsy prev then [ApiCall.createSession mn] else [])
            ++ [ApiCall.sendMessage (if pyFalsy prev then sid1 else prev.getD "")
                  (if pyFalsy prev && !history.isEmpty then buildTranscript history content
                   else content),
                ApiCall.createSession mn,
                ApiCall.sendMessage (if pyFalsy prev then sid2 else sid1)
                  (if pyFalsy prev && !history.isEmpty then buildTranscript history content
                   else content),
                ApiCall.generateContent mn (buildPrompt history content)]) := by
  unfold runInteraction
  rw [if_neg (by simp), if_pos hmn]
  cases hp : pyFalsy prev with
  | true =>
    simp [agentPath, agentSend, agentFallback, takeSession, takeSend, takeGen,
      finishPair, hs, hsend, hgen, hp]
  | false =>
    simp [agentPath, agentSend, agentFallback, takeSession, takeSend, takeGen,
      finishPair, hs, hsend, hgen, hp]

/-- `send_message` reduces to `sendCore` on valid inputs and an existing chat. -/
theorem send_message_valid (db : DB) (apiKey : Bool) (o : Oracle) (chat_id : Nat)
    (pc pm : Option String) (now1 now2 : String) (c : ChatRow)
    (hc : (pyStrip (pc.getD "") == "") = false)
    (hm : (pyStrip (pm.getD "") == "") = false)
    (hfind : db.chats.find? (fun ch => ch.id == chat_id) = some c) :
    send_message db apiKey o chat_id pc pm now1 now2
      = sendCore db apiKey o chat_id c (pyStrip (pc.getD "")) (pyStrip (pm.getD "")) now1 now2 := by
  simp only [send_message, hc, hm, hfind, Bool.false_eq_true, if_false]

theorem sendCore_error (db : DB) (apiKey : Bool) (o : Oracle) (chat_id : Nat)
    (chat_row : ChatRow) (content model_name now1 now2 : String) (e : PyErr)
    (calls : List ApiCall)
    (hrun : runInteraction apiKey o model_name content
        (if chat_row.interaction_id == "" then none else some chat_row.interaction_id)
        ((fetchMessages (insertMessage db chat_id "user" content now1) chat_id).map
          (fun m => (m.role, m.content)))
      = (Except.error e, calls)) :
    sendCore db apiKey o chat_id chat_row content model_name now1 now2
      = ⟨Except.error e, insertMessage db chat_id "user" content now1, calls⟩ := by
  simp only [sendCore]
  rw [hrun]

theorem sendCore_ok (db : DB) (apiKey : Bool) (o : Oracle) (chat_id : Nat)
    (chat_row : ChatRow) (content model_name now1 now2 reply_text new_iid : String)
    (calls : List ApiCall)
    (hrun : runInteraction apiKey o model_name content
        (if chat_row.interaction_id == "" then none else some chat_row.interaction_id)
        ((fetchMessages (insertMessage db chat_id "user" content now1) chat_id).map
          (fun m => (m.role, m.content)))
      = (Except.ok (reply_text, new_iid), calls)) :
    sendCore db apiKey o chat_id chat_row content model_name now1 now2
      = ⟨Except.ok
           (((fetchMessages (updateChats
                (insertMessage (insertMessage db chat_id "user" content now1)
                  chat_id "model" reply_text now2) chat_id
                (applyChatUpdate (newChatTitle chat_row.title content) new_iid model_name now2))
              chat_id).getLast?.map messageDict).getD [],
            (((updateChats
                (insertMessage (insertMessage db chat_id "user" content now1)
                  chat_id "model" reply_text now2) chat_id
                (applyChatUpdate (newChatTitle chat_row.title content) new_iid model_name now2)).chats.find?
                  (fun c => c.id == chat_id)).map chatDictDetail).getD []),
         updateChats
           (insertMessage (insertMessage db chat_id "user" content now1)
             chat_id "model" reply_text now2) chat_id
           (applyChatUpdate (newChatTitle chat_row.title content) new_iid model_name now2),
         calls⟩ := by
  simp only [sendCore]
  rw [hrun]

/-- The call trace recorded by `send_message` on the valid path is exactly
the adapter's trace, whatever the adapter's outcome. -/
theorem sendCore_calls (db : DB) (apiKey : Bool) (o : Oracle) (chat_id : Nat)
    (chat_row : ChatRow) (content model_name now1 now2 : String) :
    (sendCore db apiKey o chat_id chat_row content model_name now1 now2).calls
      = (runInteraction apiKey o model_name content
          (if chat_row.interaction_id == "" then none else some chat_row.interaction_id)
          ((fetchMessages (insertMessage db chat_id "user" content now1) chat_id).map
            (fun m => (m.role, m.content)))).2 := by
  rcases hr : runInteraction apiKey o model_name content
      (if chat_row.interaction_id == "" then none else some chat_row.interaction_id)
      ((fetchMessages (insertMessage db chat_id "user" content now1) chat_id).map
        (fun m => (m.role, m.content))) with ⟨res, calls⟩
  cases res with
  | error e =>
    rw [sendCore_error db apiKey o chat_id chat_row content model_name now1 now2 e calls hr, hr]
  | ok p =>
    rcases p with ⟨a, b⟩
    rw [sendCore_ok db apiKey o chat_id chat_row content model_name now1 now2 a b calls hr, hr]

/-- Per-id row updates that keep `id` and `interaction_id` leave the
(id, interaction reference) projection of the chats table unchanged. -/
theorem map_idpair_update (l : List ChatRow) (i : Nat) (f : ChatRow → ChatRow)
    (hid : ∀ c, (f c).id = c.id) (hiid : ∀ c, (f c).interaction_id = c.interaction_id) :
    (l.map (fun c => if c.id == i then f c else c)).map (fun c => (c.id, c.interaction_id))
      = l.map (fun c => (c.id, c.interaction_id)) := by
  induction l with
  | nil => rfl
  | cons x xs ih =>
    simp only [List.map_cons]
    rw [ih]
    congr 1
    by_cases h : (x.id == i) = true
    · rw [if_pos h, hid, hiid]
    · rw [if_neg h]

theorem any_id_map_update (l : List ChatRow) (i : Nat) (f : ChatRow → ChatRow)
    (hid : ∀ c, (f c).id = c.id) :
    (l.map (fun c => if c.id == i then f c else c)).any (fun c => c.id == i)
      = l.any (fun c => c.id == i) := by
  induction l with
  | nil => rfl
  | cons x xs ih =>
    simp only [List.map_cons, List.any_cons]
    rw [ih]
    congr 1
    by_cases h : (x.id == i) = true
    · rw [if_pos h, hid]
    · rw [if_neg h]

theorem any_filter_chats (l : List ChatRow) (p q : ChatRow → Bool) :
    (l.filter q).any p = l.any (fun c => q c && p c) := by
  induction l with
  | nil => rfl
  | cons x xs ih =>
    by_cases h : q x = true
    · simp [h, ih]
    · simp [h, ih]

/-! ### Claims -/

/-- C9 (confirmed): `DELETE /api/chats/{id}` for a chat id not present in the
chats table returns 404 and leaves the entire database unchanged — in
particular message rows whose chat_id equals that id are not deleted,
because the messages DELETE issued before the not-found check is rolled
back when the error is raised inside the connection scope. -/
theorem C9_delete_missing_chat_404_rollback (db : DB) (chat_id : Nat)
    (h : db.chats.find? (fun c => c.id == chat_id) = none) :
    delete_chat db chat_id = (Except.error (PyErr.http 404 "Chat not found."), db) ∧
    (delete_chat db chat_id).2.messages.filter (fun m => m.chat_id == chat_id)
      = db.messages.filter (fun m => m.chat_id == chat_id) := by
  have hfilter : db.chats.filter (fun c => c.id == chat_id) = [] :=
    List.filter_eq_nil_iff.mpr (by
      intro x hx
      have hx2 := List.find?_eq_none.mp h x hx
      simpa using hx2)
  have hmain : delete_chat db chat_id = (Except.error (PyErr.http 404 "Chat not found."), db) := by
    simp [delete_chat, hfilter]
  exact ⟨hmain, by rw [hmain]⟩

/-- Witness for C9: a database holding an orphan message row for chat id 7
and no chat 7; the delete returns 404 and the orphan row survives. -/
theorem C9_witness :
    delete_chat fixDbOrphan 7 = (Except.error (PyErr.http 404 "Chat not found."), fixDbOrphan) ∧
    (delete_chat fixDbOrphan 7).2.messages.filter (fun m => m.chat_id == 7)
      = fixDbOrphan.messages.filter (fun m => m.chat_id == 7) :=
  C9_delete_missing_chat_404_rollback fixDbOrphan 7 (by decide)

/-- C6 (confirmed): a chat still titled "New Chat" that completes a
successful message whose stripped content is T gets the stored title
strip(T[:60]), which is never longer than 60 characters. -/
theorem C6_first_message_title (db : DB) (apiKey : Bool) (o : Oracle) (chat_id : Nat)
    (pc pm : Option String) (now1 now2 : String) (c : ChatRow)
    (hc : ¬ pyStrip (pc.getD "") = "")
    (hm : (pyStrip (pm.getD "") == "") = false)
    (hfind : db.chats.find? (fun ch => ch.id == chat_id) = some c)
    (htitle : c.title = "New Chat")
    (hok : exceptOk (send_message db apiKey o chat_id pc pm now1 now2).result = true) :
    ((send_message db apiKey o chat_id pc pm now1 now2).db.chats.find?
        (fun ch => ch.id == chat_id)).map ChatRow.title
      = some (pyStrip (pyTake (pyStrip (pc.getD "")) 60)) ∧
    (pyStrip (pyTake (pyStrip (pc.getD "")) 60)).length ≤ 60 := by
  have hcb : (pyStrip (pc.getD "") == "") = false := beq_eq_false_iff_ne.mpr hc
  have hsm := send_message_valid db apiKey o chat_id pc pm now1 now2 c hcb hm hfind
  rcases hrunE : runInteraction apiKey o (pyStrip (pm.getD "")) (pyStrip (pc.getD ""))
      (if c.interaction_id == "" then none else some c.interaction_id)
      ((fetchMessages (insertMessage db chat_id "user" (pyStrip (pc.getD "")) now1) chat_id).map
        (fun m => (m.role, m.content))) with ⟨res, calls⟩
  cases res with
  | error e =>
    rw [hsm, sendCore_error db apiKey o chat_id c _ _ now1 now2 e calls hrunE] at hok
    simp [exceptOk] at hok
  | ok p =>
    rcases p with ⟨text, iid⟩
    rw [hsm, sendCore_ok db apiKey o chat_id c _ _ now1 now2 text iid calls hrunE]
    have hid : (c.id == chat_id) = true := by
      have hfs := List.find?_some hfind
      simpa using hfs
    refine ⟨?_, le_trans (pyStrip_length_le _) (pyTake_length_le _ 60)⟩
    rw [show (updateChats (insertMessage (insertMessage db chat_id "user"
          (pyStrip (pc.getD "")) now1) chat_id "model" text now2) chat_id
          (applyChatUpdate (newChatTitle c.title (pyStrip (pc.getD ""))) iid
            (pyStrip (pm.getD "")) now2)).chats
        = db.chats.map (fun ch => if ch.id == chat_id then
            applyChatUpdate (newChatTitle c.title (pyStrip (pc.getD ""))) iid
              (pyStrip (pm.getD "")) now2 ch
          else ch) from rfl]
    rw [find?_map_update db.chats chat_id
          (applyChatUpdate (newChatTitle c.title (pyStrip (pc.getD ""))) iid
            (pyStrip (pm.getD "")) now2) (fun ch => rfl),
        hfind]
    have hne : (pyStrip (pyTake (pyStrip (pc.getD "")) 60) == "") = false :=
      beq_eq_false_iff_ne.mpr (pyStrip_pyTake_pyStrip_ne (pc.getD "") 60 (by norm_num) hc)
    have hid2 : c.id = chat_id := by simpa using hid
    simp [hid, hid2, applyChatUpdate, newChatTitle, htitle, hne]

/-- Witness for C6: one "New Chat" chat, content "hello world", a plain model
served by the stateless path; the stored title is the stripped 60-character
prefix. -/
theorem C6_witness :
    ((send_message fixDbNew true fixOracleGen 1 (some "hello world") (some "m") "t1" "t2").db.chats.find?
        (fun ch => ch.id == 1)).map ChatRow.title
      = some (pyStrip (pyTake (pyStrip ((some "hello world").getD "")) 60)) ∧
    (pyStrip (pyTake (pyStrip ((some "hello world").getD "")) 60)).length ≤ 60 :=
  C6_first_message_title fixDbNew true fixOracleGen 1 (some "hello world") (some "m")
    "t1" "t2" ⟨1, "New Chat", "", none, false, "T0", "T0"⟩
    (by decide) (by decide) (by decide) (by decide) (by decide)

/-- C5 (confirmed): whenever the reply text reaching the final check of any
path is empty or whitespace-only, `_run_interaction` fails with the 502
"empty response" error; the adapter never returns success with blank text;
and on any adapter failure `send_message` persists no "model"-role message
row. -/
theorem C5_blank_reply_502_no_model_row :
    (∀ t i calls, (pyStrip t == "") = true →
       finish t i calls
         = (Except.error (PyErr.http 502 "Gemini returned an empty response."), calls)) ∧
    (∀ apiKey o mn content prev history text iid calls,
       runInteraction apiKey o mn content prev history = (Except.ok (text, iid), calls) →
       (pyStrip text == "") = false) ∧
    (∀ db apiKey o chat_id pc pm now1 now2 e,
       (send_message db apiKey o chat_id pc pm now1 now2).result = Except.error e →
       (send_message db apiKey o chat_id pc pm now1 now2).db.messages.filter
           (fun m => m.role == "model")
         = db.messages.filter (fun m => m.role == "model")) := by
  refine ⟨finish_blank, runInteraction_ok_not_blank, ?_⟩
  intro db apiKey o chat_id pc pm now1 now2 e h
  by_cases h1 : (pyStrip (pc.getD "") == "") = true
  · simp [send_message, h1]
  · by_cases h2 : (pyStrip (pm.getD "") == "") = true
    · simp [send_message, h1, h2]
    · rcases hf : db.chats.find? (fun c => c.id == chat_id) with _ | c
      · simp [send_message, h1, h2, hf]
      · have hsm := send_message_valid db apiKey o chat_id pc pm now1 now2 c
          (eq_false_of_ne_true h1) (eq_false_of_ne_true h2) hf
        rcases hrunE : runInteraction apiKey o (pyStrip (pm.getD "")) (pyStrip (pc.getD ""))
            (if c.interaction_id == "" then none else some c.interaction_id)
            ((fetchMessages (insertMessage db chat_id "user" (pyStrip (pc.getD "")) now1) chat_id).map
              (fun m => (m.role, m.content))) with ⟨res, calls⟩
        cases res with
        | error e2 =>
          rw [hsm, sendCore_error db apiKey o chat_id c _ _ now1 now2 e2 calls hrunE]
          simp [insertMessage, List.filter_append]
        | ok p =>
          rcases p with ⟨text, iid⟩
          rw [hsm, sendCore_ok db apiKey o chat_id c _ _ now1 now2 text iid calls hrunE] at h
          exact absurd h (by simp)

/-- Witness for C5: a whitespace reply hits the 502 branch; a successful
concrete run has non-blank text; a failing concrete run leaves the chat with
no model rows. -/
theorem C5_witness :
    finish " " "x" []
      = (Except.error (PyErr.http 502 "Gemini returned an empty response."), []) ∧
    (pyStrip "reply" == "") = false ∧
    (send_message fixDbChat true fixOracleEmpty 1 (some "hi") (some "m") "t1" "t2").db.messages.filter
        (fun m => m.role == "model")
      = fixDbChat.messages.filter (fun m => m.role == "model") :=
  ⟨C5_blank_reply_502_no_model_row.1 " " "x" [] (by decide),
   C5_blank_reply_502_no_model_row.2.1 true fixOracleGen "m" "hi" none [] "reply" ""
     [ApiCall.generateContent "m" "hi"] (by rfl),
   C5_blank_reply_502_no_model_row.2.2 fixDbChat true fixOracleEmpty 1 (some "hi") (some "m")
     "t1" "t2" PyErr.exn (by rfl)⟩

/-- C4 (confirmed): with valid inputs and an existing chat, the user-role
message is committed before the model call (it stays in history whatever
happens next); the chat rows — interaction reference, title, updated-at —
are modified only after a successful reply: on any model-call failure the
committed state is exactly the user-message insert with the chats table
unchanged. -/
theorem C4_user_commit_chat_update_on_success (db : DB) (apiKey : Bool) (o : Oracle)
    (chat_id : Nat) (pc pm : Option String) (now1 now2 : String) (c : ChatRow)
    (hc : (pyStrip (pc.getD "") == "") = false)
    (hm : (pyStrip (pm.getD "") == "") = false)
    (hfind : db.chats.find? (fun ch => ch.id == chat_id) = some c) :
    (∃ rest, (send_message db apiKey o chat_id pc pm now1 now2).db.messages
        = db.messages
            ++ MessageRow.mk db.nextMessageId chat_id "user" (pyStrip (pc.getD "")) now1 :: rest) ∧
    (∀ e, (send_message db apiKey o chat_id pc pm now1 now2).result = Except.error e →
       (send_message db apiKey o chat_id pc pm now1 now2).db
         = insertMessage db chat_id "user" (pyStrip (pc.getD "")) now1 ∧
       (send_message db apiKey o chat_id pc pm now1 now2).db.chats = db.chats) := by
  have hsm := send_message_valid db apiKey o chat_id pc pm now1 now2 c hc hm hfind
  rcases hrunE : runInteraction apiKey o (pyStrip (pm.getD "")) (pyStrip (pc.getD ""))
      (if c.interaction_id == "" then none else some c.interaction_id)
      ((fetchMessages (insertMessage db chat_id "user" (pyStrip (pc.getD "")) now1) chat_id).map
        (fun m => (m.role, m.content))) with ⟨res, calls⟩
  cases res with
  | error e2 =>
    rw [hsm, sendCore_error db apiKey o chat_id c _ _ now1 now2 e2 calls hrunE]
    exact ⟨⟨[], by simp [insertMessage]⟩, fun e h => ⟨rfl, rfl⟩⟩
  | ok p =>
    rcases p with ⟨text, iid⟩
    rw [hsm, sendCore_ok db apiKey o chat_id c _ _ now1 now2 text iid calls hrunE]
    constructor
    · exact ⟨[MessageRow.mk (db.nextMessageId + 1) chat_id "model" text now2],
        by simp [updateChats, insertMessage]⟩
    · intro e h
      exact absurd h (by simp)

/-- Witness for C4: a failing adapter run on a concrete database leaves
exactly the user message committed and the chats table untouched. -/
theorem C4_witness :
    (∃ rest, (send_message fixDbChat true fixOracleEmpty 1 (some "hi") (some "m") "t1" "t2").db.messages
        = fixDbChat.messages
            ++ MessageRow.mk fixDbChat.nextMessageId 1 "user" (pyStrip ((some "hi").getD "")) "t1" :: rest) ∧
    (∀ e, (send_message fixDbChat true fixOracleEmpty 1 (some "hi") (some "m") "t1" "t2").result
          = Except.error e →
       (send_message fixDbChat true fixOracleEmpty 1 (some "hi") (some "m") "t1" "t2").db
         = insertMessage fixDbChat 1 "user" (pyStrip ((some "hi").getD "")) "t1" ∧
       (send_message fixDbChat true fixOracleEmpty 1 (some "hi") (some "m") "t1" "t2").db.chats
         = fixDbChat.chats) :=
  C4_user_commit_chat_update_on_success fixDbChat true fixOracleEmpty 1 (some "hi") (some "m")
    "t1" "t2" ⟨1, "Chat", "", none, false, "T0", "T0"⟩ (by decide) (by decide) (by decide)

/-- C1 counterexample: chat 1 holds two prior turns and an empty interaction
reference.  Sending "new" to a deep-research model sends a transcript in
which the new message also appears as the last history line — not the spec's
transcript of the prior turns followed by a single final user line. -/
theorem C1_counterexample :
    (send_message fixDbHist true fixOracleAgentOk 1 (some "new") (some "deep-research-x")
        "t1" "t2").calls
      = [ApiCall.createSession "deep-research-x",
         ApiCall.sendMessage "S" "User: hi\nAssistant: yo\nUser: new\nUser: new"] ∧
    ¬ "User: hi\nAssistant: yo\nUser: new\nUser: new"
        = specOutgoingTranscript [("user", "hi"), ("model", "yo")] "new" :=
  ⟨by decide, by decide⟩

/-- C1 amended (corrected): for an agent-marker model with an empty stored
interaction reference, the outgoing content is the labelled transcript of
the last 20 stored messages — which, because the new user message is
committed before the history fetch, include the new message as the final
stored turn — followed by one more final "User:" line carrying the new
message; the new message therefore appears twice, not only as the final
line. -/
theorem C1_amended_transcript (db : DB) (o : Oracle) (chat_id : Nat)
    (pc pm : Option String) (now1 now2 : String) (c : ChatRow) (sid : String)
    (t : Option String) (sess : List (Except Unit String))
    (sends' : List (Except Unit (Option String)))
    (hc : ¬ pyStrip (pc.getD "") = "")
    (hm : (pyStrip (pm.getD "") == "") = false)
    (hmn : pyStartsWith (pyStrip (pm.getD "")) "deep-research" = true)
    (hfind : db.chats.find? (fun ch => ch.id == chat_id) = some c)
    (hprev : c.interaction_id = "")
    (hmax : ∀ m ∈ db.messages, m.id < db.nextMessageId)
    (hs : o.sessions = Except.ok sid :: sess)
    (hsend : o.sends = Except.ok t :: sends') :
    (send_message db true o chat_id pc pm now1 now2).calls
      = [ApiCall.createSession (pyStrip (pm.getD "")),
         ApiCall.sendMessage sid
           (specOutgoingTranscript
             ((fetchMessages db chat_id).map (fun m => (m.role, m.content))
               ++ [("user", pyStrip (pc.getD ""))])
             (pyStrip (pc.getD "")))] := by
  have hcb : (pyStrip (pc.getD "") == "") = false := beq_eq_false_iff_ne.mpr hc
  have hsm := send_message_valid db true o chat_id pc pm now1 now2 c hcb hm hfind
  have hhist : (fetchMessages (insertMessage db chat_id "user" (pyStrip (pc.getD "")) now1)
        chat_id).map (fun m => (m.role, m.content))
      = (fetchMessages db chat_id).map (fun m => (m.role, m.content))
          ++ [("user", pyStrip (pc.getD ""))] := by
    rw [fetchMessages_insertMessage db chat_id _ _ now1 hmax]
    simp
  have hprevif : (if c.interaction_id == "" then none else some c.interaction_id)
      = (none : Option String) := by
    simp [hprev]
  have hne : ((fetchMessages db chat_id).map (fun m => (m.role, m.content))
      ++ [("user", pyStrip (pc.getD ""))]).isEmpty = false := by
    simp
  rw [hsm, sendCore_calls, hprevif, hhist,
    agent_first_send o (pyStrip (pm.getD "")) (pyStrip (pc.getD ""))
      ((fetchMessages db chat_id).map (fun m => (m.role, m.content))
        ++ [("user", pyStrip (pc.getD ""))]) sid t sess sends' hs hsend hmn hne,
    finish_snd]
  rfl

/-- Witness for the amended C1 on the two-turn fixture. -/
theorem C1_amended_witness :
    (send_message fixDbHist true fixOracleAgentOk 1 (some "new") (some "deep-research-x")
        "t1" "t2").calls
      = [ApiCall.createSession (pyStrip ((some "deep-research-x").getD "")),
         ApiCall.sendMessage "S"
           (specOutgoingTranscript
             ((fetchMessages fixDbHist 1).map (fun m => (m.role, m.content))
               ++ [("user", pyStrip ((some "new").getD ""))])
             (pyStrip ((some "new").getD "")))] :=
  C1_amended_transcript fixDbHist fixOracleAgentOk 1 (some "new") (some "deep-research-x")
    "t1" "t2" ⟨1, "Chat", "", none, false, "T0", "T0"⟩ "S" (some "reply") [] []
    (by decide) (by decide) (by decide) (by decide) (by decide) (by decide)
    (by rfl) (by rfl)

/-- C3 (confirmed): on the agent path, when the first send fails the adapter
creates one brand-new session and resends the same prepared message; when
that retry also fails it makes one stateless `generate_content` call whose
prompt is the bounded history plus the new message, the reply comes from
that call, and the chat's stored interaction reference afterwards is the
empty string. -/
theorem C3_agent_retry_then_stateless (db : DB) (o : Oracle) (chat_id : Nat)
    (pc pm : Option String) (now1 now2 : String) (c : ChatRow) (sid1 sid2 : String)
    (t : Option String) (sess : List (Except Unit String))
    (sends2 gens2 : List (Except Unit (Option String)))
    (content H msgP : _)
    (hcontent : content = pyStrip (pc.getD ""))
    (hH : H = (fetchMessages db chat_id).map (fun m => (m.role, m.content))
        ++ [("user", content)])
    (hmsg : msgP = if c.interaction_id == "" then buildTranscript H content else content)
    (hc : (content == "") = false)
    (hm : (pyStrip (pm.getD "") == "") = false)
    (hmn : pyStartsWith (pyStrip (pm.getD "")) "deep-research" = true)
    (hfind : db.chats.find? (fun ch => ch.id == chat_id) = some c)
    (hmax : ∀ m ∈ db.messages, m.id < db.nextMessageId)
    (hs : o.sessions = Except.ok sid1 :: Except.ok sid2 :: sess)
    (hsend : o.sends = Except.error () :: Except.error () :: sends2)
    (hgen : o.gens = Except.ok t :: gens2)
    (ht : (pyStrip (t.getD "") == "") = false) :
    (send_message db true o chat_id pc pm now1 now2).calls
      = (if c.interaction_id == "" then [ApiCall.createSession (pyStrip (pm.getD ""))] else [])
          ++ [ApiCall.sendMessage (if c.interaction_id == "" then sid1 else c.interaction_id) msgP,
              ApiCall.createSession (pyStrip (pm.getD "")),
              ApiCall.sendMessage (if c.interaction_id == "" then sid2 else sid1) msgP,
              ApiCall.generateContent (pyStrip (pm.getD "")) (buildTranscript H content)] ∧
    ((send_message db true o chat_id pc pm now1 now2).db.chats.find?
        (fun ch => ch.id == chat_id)).map ChatRow.interaction_id = some "" ∧
    (send_message db true o chat_id pc pm now1 now2).db.messages
      = db.messages ++ [MessageRow.mk db.nextMessageId chat_id "user" content now1,
                        MessageRow.mk (db.nextMessageId + 1) chat_id "model" (t.getD "") now2] := by
  subst hcontent
  have hsm := send_message_valid db true o chat_id pc pm now1 now2 c hc hm hfind
  have hhist : (fetchMessages (insertMessage db chat_id "user" (pyStrip (pc.getD "")) now1)
        chat_id).map (fun m => (m.role, m.content)) = H := by
    rw [fetchMessages_insertMessage db chat_id _ _ now1 hmax, hH]
    simp
  have hne : H.isEmpty = false := by
    rw [hH]
    simp
  have hrun0 := agent_double_failure o (pyStrip (pm.getD "")) (pyStrip (pc.getD ""))
      (if c.interaction_id == "" then none else some c.interaction_id) H sid1 sid2 t sess
      sends2 gens2 hs hsend hgen hmn
  rw [finish_not_blank _ _ _ ht] at hrun0
  have hrun2 : runInteraction true o (pyStrip (pm.getD "")) (pyStrip (pc.getD ""))
      (if c.interaction_id == "" then none else some c.interaction_id)
      ((fetchMessages (insertMessage db chat_id "user" (pyStrip (pc.getD "")) now1)
        chat_id).map (fun m => (m.role, m.content)))
      = (Except.ok (t.getD "", ""),
         (if pyFalsy (if c.interaction_id == "" then none else some c.interaction_id)
            then [ApiCall.createSession (pyStrip (pm.getD ""))] else [])
           ++ [ApiCall.sendMessage
                 (if pyFalsy (if c.interaction_id == "" then none else some c.interaction_id)
                  then sid1
                  else (if c.interaction_id == "" then none else some c.interaction_id).getD "")
                 (if pyFalsy (if c.interaction_id == "" then none else some c.interaction_id)
                     && !H.isEmpty then buildTranscript H (pyStrip (pc.getD ""))
                  else pyStrip (pc.getD "")),
               ApiCall.createSession (pyStrip (pm.getD "")),
               ApiCall.sendMessage
                 (if pyFalsy (if c.interaction_id == "" then none else some c.interaction_id)
                  then sid2 else sid1)
                 (if pyFalsy (if c.interaction_id == "" then none else some c.interaction_id)
                     && !H.isEmpty then buildTranscript H (pyStrip (pc.getD ""))
                  else pyStrip (pc.getD "")),
               ApiCall.generateContent (pyStrip (pm.getD ""))
                 (buildPrompt H (pyStrip (pc.getD "")))]) := by
    rw [hhist]
    exact hrun0
  have hid : (c.id == chat_id) = true := by
    have hfs := List.find?_some hfind
    simpa using hfs
  refine ⟨?_, ?_, ?_⟩
  · rw [hsm, sendCore_calls, hrun2]
    rw [pyFalsy_previous, hne, buildPrompt_of_ne_nil H _ hne, hmsg]
    by_cases hP : (c.interaction_id == "") = true
    · simp [hP]
    · simp [hP]
  · rw [hsm, sendCore_ok db true o chat_id c _ _ now1 now2 (t.getD "") "" _ hrun2]
    rw [show (updateChats (insertMessage (insertMessage db chat_id "user"
          (pyStrip (pc.getD "")) now1) chat_id "model" (t.getD "") now2) chat_id
          (applyChatUpdate (newChatTitle c.title (pyStrip (pc.getD ""))) ""
            (pyStrip (pm.getD "")) now2)).chats
        = db.chats.map (fun ch => if ch.id == chat_id then
            applyChatUpdate (newChatTitle c.title (pyStrip (pc.getD ""))) ""
              (pyStrip (pm.getD "")) now2 ch
          else ch) from rfl]
    rw [find?_map_update db.chats chat_id
          (applyChatUpdate (newChatTitle c.title (pyStrip (pc.getD ""))) ""
            (pyStrip (pm.getD "")) now2) (fun ch => rfl),
        hfind]
    have hid2 : c.id = chat_id := by simpa using hid
    simp [hid, hid2, applyChatUpdate]
  · rw [hsm, sendCore_ok db true o chat_id c _ _ now1 now2 (t.getD "") "" _ hrun2]
    simp [updateChats, insertMessage]

/-- Witness for C3: both sends fail on a fresh chat, the stateless fallback
answers "hello", and the chat ends with an empty interaction reference. -/
theorem C3_witness :
    (send_message fixDbChat true fixOracleFail2 1 (some "hi") (some "deep-research-x")
        "t1" "t2").calls
      = (if ("" : String) == "" then [ApiCall.createSession "deep-research-x"] else [])
          ++ [ApiCall.sendMessage (if ("" : String) == "" then "S" else "") "User: hi\nUser: hi",
              ApiCall.createSession "deep-research-x",
              ApiCall.sendMessage (if ("" : String) == "" then "S2" else "S") "User: hi\nUser: hi",
              ApiCall.generateContent "deep-research-x" "User: hi\nUser: hi"] ∧
    ((send_message fixDbChat true fixOracleFail2 1 (some "hi") (some "deep-research-x")
        "t1" "t2").db.chats.find? (fun ch => ch.id == 1)).map ChatRow.interaction_id = some "" ∧
    (send_message fixDbChat true fixOracleFail2 1 (some "hi") (some "deep-research-x")
        "t1" "t2").db.messages
      = fixDbChat.messages ++ [MessageRow.mk 1 1 "user" "hi" "t1",
                               MessageRow.mk 2 1 "model" "hello" "t2"] :=
  C3_agent_retry_then_stateless fixDbChat fixOracleFail2 1 (some "hi") (some "deep-research-x")
    "t1" "t2" ⟨1, "Chat", "", none, false, "T0", "T0"⟩ "S" "S2" (some "hello") []
    [] [] "hi" [("user", "hi")] "User: hi\nUser: hi"
    (by decide) (by decide) (by decide) (by decide) (by decide) (by decide)
    (by decide) (by decide) (by rfl) (by rfl) (by rfl) (by decide)

/-- C2 counterexample: a successful `POST /api/chats/{id}/messages` served by
the stateless fallback (both agent sends fail) leaves the chat's interaction
reference EMPTY — refuting "non-empty after any successful POST". -/
theorem C2_counterexample :
    exceptOk (send_message fixDbChat true fixOracleFail2 1 (some "hi")
        (some "deep-research-x") "t1" "t2").result = true ∧
    (send_message fixDbChat true fixOracleFail2 1 (some "hi")
        (some "deep-research-x") "t1" "t2").db.chats.map ChatRow.interaction_id = [""] :=
  ⟨by decide, by decide⟩

/-- C2 amended (corrected): a chat's interaction reference starts out empty
at creation; rename, archive and restore never change any chat's reference;
it changes only on a successful message turn, which stores exactly the
adapter-returned reference — and that reference may itself be the empty
string (stateless fallback).  So a non-empty reference implies a completed
successful turn, but a successful turn need not leave a non-empty
reference. -/
theorem C2_amended_reference_lifecycle :
    (∀ db pt pmn now,
       (create_chat db pt pmn now).2.chats.map (fun c => (c.id, c.interaction_id))
         = db.chats.map (fun c => (c.id, c.interaction_id)) ++ [(db.nextChatId, "")]) ∧
    (∀ db i pt now,
       (rename_chat db i pt now).2.chats.map (fun c => (c.id, c.interaction_id))
         = db.chats.map (fun c => (c.id, c.interaction_id))) ∧
    (∀ db i now,
       (archive_chat db i now).2.chats.map (fun c => (c.id, c.interaction_id))
         = db.chats.map (fun c => (c.id, c.interaction_id))) ∧
    (∀ db i now,
       (restore_chat db i now).2.chats.map (fun c => (c.id, c.interaction_id))
         = db.chats.map (fun c => (c.id, c.interaction_id))) ∧
    (∀ db apiKey o i pc pm n1 n2 e,
       (send_message db apiKey o i pc pm n1 n2).result = Except.error e →
       (send_message db apiKey o i pc pm n1 n2).db.chats.map (fun c => (c.id, c.interaction_id))
         = db.chats.map (fun c => (c.id, c.interaction_id))) ∧
    (∀ db apiKey o i pc pm n1 n2 c text iid calls,
       (pyStrip (pc.getD "") == "") = false →
       (pyStrip (pm.getD "") == "") = false →
       db.chats.find? (fun ch => ch.id == i) = some c →
       runInteraction apiKey o (pyStrip (pm.getD "")) (pyStrip (pc.getD ""))
           (if c.interaction_id == "" then none else some c.interaction_id)
           ((fetchMessages (insertMessage db i "user" (pyStrip (pc.getD "")) n1) i).map
             (fun m => (m.role, m.content)))
         = (Except.ok (text, iid), calls) →
       ((send_message db apiKey o i pc pm n1 n2).db.chats.find?
           (fun ch => ch.id == i)).map ChatRow.interaction_id = some iid) := by
  refine ⟨?_, ?_, ?_, ?_, ?_, ?_⟩
  · intro db pt pmn now
    simp [create_chat]
  · intro db i pt now
    simp only [rename_chat]
    by_cases h1 : (pyStrip (pt.getD "") == "") = true
    · rw [if_pos h1]
    · rw [if_neg h1]
      by_cases h2 : 200 < (pyStrip (pt.getD "")).length
      · rw [if_pos h2]
      · rw [if_neg h2]
        by_cases h3 : db.chats.any (fun c => c.id == i) = true
        · rw [if_pos h3]
          exact map_idpair_update db.chats i _ (fun c => rfl) (fun c => rfl)
        · rw [if_neg h3]
  · intro db i now
    simp only [archive_chat]
    by_cases h3 : db.chats.any (fun c => c.id == i) = true
    · rw [if_pos h3]
      exact map_idpair_update db.chats i _ (fun c => rfl) (fun c => rfl)
    · rw [if_neg h3]
  · intro db i now
    simp only [restore_chat]
    by_cases h3 : db.chats.any (fun c => c.id == i) = true
    · rw [if_pos h3]
      exact map_idpair_update db.chats i _ (fun c => rfl) (fun c => rfl)
    · rw [if_neg h3]
  · intro db apiKey o i pc pm n1 n2 e h
    by_cases h1 : (pyStrip (pc.getD "") == "") = true
    · simp [send_message, h1]
    · by_cases h2 : (pyStrip (pm.getD "") == "") = true
      · simp [send_message, h1, h2]
      · rcases hf : db.chats.find? (fun c => c.id == i) with _ | c
        · simp [send_message, h1, h2, hf]
        · have hsm := send_message_valid db apiKey o i pc pm n1 n2 c
            (eq_false_of_ne_true h1) (eq_false_of_ne_true h2) hf
          rcases hrunE : runInteraction apiKey o (pyStrip (pm.getD "")) (pyStrip (pc.getD ""))
              (if c.interaction_id == "" then none else some c.interaction_id)
              ((fetchMessages (insertMessage db i "user" (pyStrip (pc.getD "")) n1) i).map
                (fun m => (m.role, m.content))) with ⟨res, calls⟩
          cases res with
          | error e2 =>
            rw [hsm, sendCore_error db apiKey o i c _ _ n1 n2 e2 calls hrunE]
            rfl
          | ok p =>
            rcases p with ⟨text, iid⟩
            rw [hsm, sendCore_ok db apiKey o i c _ _ n1 n2 text iid calls hrunE] at h
            exact absurd h (by simp)
  · intro db apiKey o i pc pm n1 n2 c text iid calls h1 h2 hf hrun
    have hsm := send_message_valid db apiKey o i pc pm n1 n2 c h1 h2 hf
    rw [hsm, sendCore_ok db apiKey o i c _ _ n1 n2 text iid calls hrun]
    have hid : (c.id == i) = true := by
      have hfs := List.find?_some hf
      simpa using hfs
    have hid2 : c.id = i := by simpa using hid
    rw [show (updateChats (insertMessage (insertMessage db i "user"
          (pyStrip (pc.getD "")) n1) i "model" text n2) i
          (applyChatUpdate (newChatTitle c.title (pyStrip (pc.getD ""))) iid
            (pyStrip (pm.getD "")) n2)).chats
        = db.chats.map (fun ch => if ch.id == i then
            applyChatUpdate (newChatTitle c.title (pyStrip (pc.getD ""))) iid
              (pyStrip (pm.getD "")) n2 ch
          else ch) from rfl]
    rw [find?_map_update db.chats i
          (applyChatUpdate (newChatTitle c.title (pyStrip (pc.getD ""))) iid
            (pyStrip (pm.getD "")) n2) (fun ch => rfl),
        hf]
    simp [hid, hid2, applyChatUpdate]

/-- Witness for the amended C2: a successful plain-model turn stores the
adapter-returned (empty) reference. -/
theorem C2_amended_witness :
    ((send_message fixDbChat true fixOracleGen 1 (some "hi") (some "m") "t1" "t2").db.chats.find?
        (fun ch => ch.id == 1)).map ChatRow.interaction_id = some "" :=
  C2_amended_reference_lifecycle.2.2.2.2.2 fixDbChat true fixOracleGen 1 (some "hi") (some "m")
    "t1" "t2" ⟨1, "Chat", "", none, false, "T0", "T0"⟩ "reply" ""
    [ApiCall.generateContent "m" "User: hi\nUser: hi"]
    (by decide) (by decide) (by decide) (by rfl)

/-- C7 counterexample: for a chat that is already archived, archive followed
by restore does NOT return it to its pre-archive visibility (it was hidden
from GET /api/chats, afterwards it is listed), and the updated-at timestamp
is not preserved (it becomes the restore time). -/
theorem C7_counterexample :
    ((fetchChatRows fixDbArch).map ChatRow.id = [] ∧
      (fetchChatRows ((restore_chat (archive_chat fixDbArch 1 "t1").2 1 "t2").2)).map ChatRow.id
        = [1]) ∧
    ((restore_chat (archive_chat fixDbArch 1 "t1").2 1 "t2").2).chats.map ChatRow.updated_at
      = ["t2"] :=
  ⟨⟨by decide, by decide⟩, by decide⟩

/-- C7 amended (corrected): for a NON-archived chat, archive followed by
restore leaves its visibility in GET /api/chats as before (still listed) and
preserves title, interaction reference, last model, created-at and the whole
message history; the updated-at timestamp however is bumped to the restore
time by the two UPDATEs. -/
theorem C7_amended_archive_restore (db : DB) (chat_id : Nat) (now1 now2 : String) (c : ChatRow)
    (hfind : db.chats.find? (fun ch => ch.id == chat_id) = some c)
    (harch : c.archived = false) :
    (restore_chat (archive_chat db chat_id now1).2 chat_id now2).2.chats.find?
        (fun ch => ch.id == chat_id) = some { c with updated_at := now2 } ∧
    (restore_chat (archive_chat db chat_id now1).2 chat_id now2).2.messages = db.messages ∧
    (fetchChatRows (restore_chat (archive_chat db chat_id now1).2 chat_id now2).2).any
        (fun ch => ch.id == chat_id)
      = (fetchChatRows db).any (fun ch => ch.id == chat_id) := by
  have hmem := List.mem_of_find?_eq_some hfind
  have hp : (c.id == chat_id) = true := by
    have hfs := List.find?_some hfind
    simpa using hfs
  have hp2 : c.id = chat_id := by simpa using hp
  have hany : db.chats.any (fun ch => ch.id == chat_id) = true :=
    List.any_eq_true.mpr ⟨c, hmem, hp⟩
  have harch2 : (archive_chat db chat_id now1).2
      = { db with chats := db.chats.map (fun ch => if ch.id == chat_id then
            { ch with archived := true, updated_at := now1 } else ch) } := by
    simp only [archive_chat]
    rw [if_pos hany]
  have hany2 : ((archive_chat db chat_id now1).2).chats.any (fun ch => ch.id == chat_id) = true := by
    rw [harch2]
    show (db.chats.map (fun ch => if ch.id == chat_id then
        { ch with archived := true, updated_at := now1 } else ch)).any (fun ch => ch.id == chat_id) = true
    rw [any_id_map_update db.chats chat_id
          (fun ch => { ch with archived := true, updated_at := now1 }) (fun ch => rfl)]
    exact hany
  have hrest : (restore_chat (archive_chat db chat_id now1).2 chat_id now2).2
      = { (archive_chat db chat_id now1).2 with
          chats := ((archive_chat db chat_id now1).2).chats.map (fun ch =>
            if ch.id == chat_id then { ch with archived := false, updated_at := now2 } else ch) } := by
    simp only [restore_chat]
    rw [if_pos hany2]
  refine ⟨?_, ?_, ?_⟩
  · rw [hrest, harch2]
    show ((db.chats.map (fun ch => if ch.id == chat_id then
        { ch with archived := true, updated_at := now1 } else ch)).map (fun ch =>
        if ch.id == chat_id then { ch with archived := false, updated_at := now2 } else ch)).find?
        (fun ch => ch.id == chat_id) = some { c with updated_at := now2 }
    rw [find?_map_update _ chat_id (fun ch => { ch with archived := false, updated_at := now2 })
          (fun ch => rfl),
        find?_map_update db.chats chat_id (fun ch => { ch with archived := true, updated_at := now1 })
          (fun ch => rfl),
        hfind]
    simp [hp, hp2, harch]
  · rw [hrest, harch2]
  · have hL : (fetchChatRows (restore_chat (archive_chat db chat_id now1).2 chat_id now2).2).any
        (fun ch => ch.id == chat_id) = true := by
      unfold fetchChatRows
      rw [any_sortByUpdatedDesc, any_filter_chats]
      refine List.any_eq_true.mpr ?_
      refine ⟨{ c with updated_at := now2 }, ?_, ?_⟩
      · have hfind2 := (?_ : (restore_chat (archive_chat db chat_id now1).2 chat_id now2).2.chats.find?
            (fun ch => ch.id == chat_id) = some { c with updated_at := now2 })
        · exact List.mem_of_find?_eq_some hfind2
        · rw [hrest, harch2]
          show ((db.chats.map (fun ch => if ch.id == chat_id then
              { ch with archived := true, updated_at := now1 } else ch)).map (fun ch =>
              if ch.id == chat_id then { ch with archived := false, updated_at := now2 } else ch)).find?
              (fun ch => ch.id == chat_id) = some { c with updated_at := now2 }
          rw [find?_map_update _ chat_id (fun ch => { ch with archived := false, updated_at := now2 })
                (fun ch => rfl),
              find?_map_update db.chats chat_id
                (fun ch => { ch with archived := true, updated_at := now1 }) (fun ch => rfl),
              hfind]
          simp [hp, hp2, harch]
      · simp [hp, harch]
    have hR : (fetchChatRows db).any (fun ch => ch.id == chat_id) = true := by
      unfold fetchChatRows
      rw [any_sortByUpdatedDesc, any_filter_chats]
      exact List.any_eq_true.mpr ⟨c, hmem, by simp [harch, hp]⟩
    rw [hL, hR]

/-- Witness for the amended C7 on a visible chat fixture. -/
theorem C7_amended_witness :
    (restore_chat (archive_chat fixDbChat 1 "t1").2 1 "t2").2.chats.find?
        (fun ch => ch.id == 1)
      = some { (⟨1, "Chat", "", none, false, "T0", "T0"⟩ : ChatRow) with updated_at := "t2" } ∧
    (restore_chat (archive_chat fixDbChat 1 "t1").2 1 "t2").2.messages = fixDbChat.messages ∧
    (fetchChatRows (restore_chat (archive_chat fixDbChat 1 "t1").2 1 "t2").2).any
        (fun ch => ch.id == 1)
      = (fetchChatRows fixDbChat).any (fun ch => ch.id == 1) :=
  C7_amended_archive_restore fixDbChat 1 "t1" "t2" ⟨1, "Chat", "", none, false, "T0", "T0"⟩
    (by decide) (by decide)

/-- C8 counterexample: renaming a model to a name that already exists — its
own current name — succeeds with 200 instead of failing with the Conflict
error (the UPDATE raises no uniqueness violation). -/
theorem C8_counterexample :
    exceptOk (update_model fixDbModel 1 (some "a")).1 = true ∧
    (update_model fixDbModel 1 (some "a")).2 = fixDbModel :=
  ⟨by decide, by decide⟩

/-- C8 amended (corrected): inserting a model whose (stripped) name already
exists, or renaming a model to a name held by a DIFFERENT model, fails with
the Conflict error reported as HTTP 400 and leaves the models table
unchanged; renaming a model to its own current name is not a conflict. -/
theorem C8_amended_duplicate_name_conflict :
    (∀ db pn now, (pyStrip (pn.getD "") == "") = false →
       db.models.any (fun m => m.name == pyStrip (pn.getD "")) = true →
       create_model db pn now = (Except.error (PyErr.http 400 "Model already exists."), db)) ∧
    (∀ db mid pn, (pyStrip (pn.getD "") == "") = false →
       db.models.any (fun m => m.id == mid) = true →
       db.models.any (fun m => !(m.id == mid) && m.name == pyStrip (pn.getD "")) = true →
       update_model db mid pn = (Except.error (PyErr.http 400 "Model already exists."), db)) := by
  constructor
  · intro db pn now h0 hdup
    simp only [create_model]
    rw [if_neg (by simp [h0]), if_pos hdup]
  · intro db mid pn h0 hex hdup
    simp only [update_model]
    rw [if_neg (by simp [h0]), if_pos (by rw [hex, hdup]; rfl)]

/-- Witness for the amended C8: inserting the duplicate name "a" and renaming
model 2 to the existing name "a" both fail with 400 and change nothing. -/
theorem C8_witness :
    create_model fixDbModels2 (some "a") "T1"
      = (Except.error (PyErr.http 400 "Model already exists."), fixDbModels2) ∧
    update_model fixDbModels2 2 (some "a")
      = (Except.error (PyErr.http 400 "Model already exists."), fixDbModels2) :=
  ⟨C8_amended_duplicate_name_conflict.1 fixDbModels2 (some "a") "T1" (by decide) (by decide),
   C8_amended_duplicate_name_conflict.2 fixDbModels2 2 (some "a") (by decide) (by decide)
     (by decide)⟩

/-- C10 (confirmed): the chat object returned by GET /api/chats/{id},
PUT /api/chats/{id}/title and POST /api/chats/{id}/messages carries exactly
the fields id, title, interaction_id, last_model, created_at, updated_at —
omitting the archived flag — while every chat object produced by the list
endpoints and by archive/restore includes the archived field. -/
theorem C10_chat_object_fields :
    (∀ db i cd msgs, get_chat db i = Except.ok (cd, msgs) →
       cd.map Prod.fst
         = ["id", "title", "interaction_id", "last_model", "created_at", "updated_at"]) ∧
    (∀ db i pt now cd, (rename_chat db i pt now).1 = Except.ok cd →
       cd.map Prod.fst
         = ["id", "title", "interaction_id", "last_model", "created_at", "updated_at"]) ∧
    (∀ db apiKey o i pc pm n1 n2 md cd,
       (send_message db apiKey o i pc pm n1 n2).result = Except.ok (md, cd) →
       cd.map Prod.fst
         = ["id", "title", "interaction_id", "last_model", "created_at", "updated_at"]) ∧
    (∀ db entry, entry ∈ list_chats db → "archived" ∈ entry.map Prod.fst) ∧
    (∀ db entry, entry ∈ list_archived_chats db → "archived" ∈ entry.map Prod.fst) ∧
    (∀ db i now cd, (archive_chat db i now).1 = Except.ok cd → "archived" ∈ cd.map Prod.fst) ∧
    (∀ db i now cd, (restore_chat db i now).1 = Except.ok cd → "archived" ∈ cd.map Prod.fst) ∧
    "archived" ∉ (["id", "title", "interaction_id", "last_model", "created_at", "updated_at"]
      : List String) := by
  refine ⟨?_, ?_, ?_, ?_, ?_, ?_, ?_, by decide⟩
  · intro db i cd msgs h
    unfold get_chat at h
    rcases hf : db.chats.find? (fun c => c.id == i) with _ | c
    · rw [hf] at h
      exact absurd h (by simp)
    · rw [hf] at h
      obtain ⟨h1, -⟩ := Prod.mk.inj (Except.ok.inj h)
      rw [← h1]
      rfl
  · intro db i pt now cd h
    simp only [rename_chat] at h
    by_cases h1 : (pyStrip (pt.getD "") == "") = true
    · rw [if_pos h1] at h
      exact absurd h (by simp)
    · rw [if_neg h1] at h
      by_cases h2 : 200 < (pyStrip (pt.getD "")).length
      · rw [if_pos h2] at h
        exact absurd h (by simp)
      · rw [if_neg h2] at h
        by_cases h3 : db.chats.any (fun c => c.id == i) = true
        · rw [if_pos h3] at h
          obtain ⟨c0, hc0⟩ : ∃ c0, db.chats.find? (fun c => c.id == i) = some c0 := by
            have hsome : (db.chats.find? (fun c => c.id == i)).isSome := by
              rw [List.find?_isSome]
              simpa using List.any_eq_true.mp h3
            exact Option.isSome_iff_exists.mp hsome
          rw [find?_map_update db.chats i
                (fun c => { c with title := pyStrip (pt.getD ""), updated_at := now })
                (fun c => rfl),
              hc0] at h
          simp only [Option.map_some', Option.getD_some] at h
          have hcd := Except.ok.inj h
          rw [← hcd]
          by_cases h4 : (c0.id == i) = true
          · rw [if_pos h4]
            rfl
          · rw [if_neg h4]
            rfl
        · rw [if_neg h3] at h
          exact absurd h (by simp)
  · intro db apiKey o i pc pm n1 n2 md cd h
    by_cases h1 : (pyStrip (pc.getD "") == "") = true
    · simp [send_message, h1] at h
    · by_cases h2 : (pyStrip (pm.getD "") == "") = true
      · simp [send_message, h1, h2] at h
      · rcases hf : db.chats.find? (fun c => c.id == i) with _ | c
        · simp [send_message, h1, h2, hf] at h
        · have hsm := send_message_valid db apiKey o i pc pm n1 n2 c
            (eq_false_of_ne_true h1) (eq_false_of_ne_true h2) hf
          rcases hrunE : runInteraction apiKey o (pyStrip (pm.getD "")) (pyStrip (pc.getD ""))
              (if c.interaction_id == "" then none else some c.interaction_id)
              ((fetchMessages (insertMessage db i "user" (pyStrip (pc.getD "")) n1) i).map
                (fun m => (m.role, m.content))) with ⟨res, calls⟩
          cases res with
          | error e2 =>
            rw [hsm, sendCore_error db apiKey o i c _ _ n1 n2 e2 calls hrunE] at h
            exact absurd h (by simp)
          | ok p =>
            rcases p with ⟨text, iid⟩
            rw [hsm, sendCore_ok db apiKey o i c _ _ n1 n2 text iid calls hrunE] at h
            have hid : (c.id == i) = true := by
              have hfs := List.find?_some hf
              simpa using hfs
            have hch : ((updateChats (insertMessage (insertMessage db i "user"
                  (pyStrip (pc.getD "")) n1) i "model" text n2) i
                  (applyChatUpdate (newChatTitle c.title (pyStrip (pc.getD ""))) iid
                    (pyStrip (pm.getD "")) n2)).chats.find? (fun ch => ch.id == i))
                = some (applyChatUpdate (newChatTitle c.title (pyStrip (pc.getD ""))) iid
                    (pyStrip (pm.getD "")) n2 c) := by
              rw [show (updateChats (insertMessage (insertMessage db i "user"
                    (pyStrip (pc.getD "")) n1) i "model" text n2) i
                    (applyChatUpdate (newChatTitle c.title (pyStrip (pc.getD ""))) iid
                      (pyStrip (pm.getD "")) n2)).chats
                  = db.chats.map (fun ch => if ch.id == i then
                      applyChatUpdate (newChatTitle c.title (pyStrip (pc.getD ""))) iid
                        (pyStrip (pm.getD "")) n2 ch
                    else ch) from rfl]
              rw [find?_map_update db.chats i
                    (applyChatUpdate (newChatTitle c.title (pyStrip (pc.getD ""))) iid
                      (pyStrip (pm.getD "")) n2) (fun ch => rfl),
                  hf]
              simp only [Option.map_some']
              rw [if_pos hid]
            rw [hch] at h
            simp only [Option.map_some', Option.getD_some] at h
            obtain ⟨-, h5⟩ := Prod.mk.inj (Except.ok.inj h)
            rw [← h5]
            rfl
  · intro db entry h
    unfold list_chats at h
    obtain ⟨c, -, hc⟩ := List.mem_map.mp h
    rw [← hc]
    simp [chatDictList]
  · intro db entry h
    unfold list_archived_chats at h
    obtain ⟨c, -, hc⟩ := List.mem_map.mp h
    rw [← hc]
    simp [chatDictList]
  · intro db i now cd h
    simp only [archive_chat] at h
    by_cases h3 : db.chats.any (fun c => c.id == i) = true
    · rw [if_pos h3] at h
      obtain ⟨c0, hc0⟩ : ∃ c0, db.chats.find? (fun c => c.id == i) = some c0 := by
        have hsome : (db.chats.find? (fun c => c.id == i)).isSome := by
          rw [List.find?_isSome]
          simpa using List.any_eq_true.mp h3
        exact Option.isSome_iff_exists.mp hsome
      rw [find?_map_update db.chats i
            (fun c => { c with archived := true, updated_at := now }) (fun c => rfl),
          hc0] at h
      simp only [Option.map_some', Option.getD_some] at h
      have hcd := Except.ok.inj h
      rw [← hcd]
      by_cases h4 : (c0.id == i) = true
      · rw [if_pos h4]
        simp [chatDictList]
      · rw [if_neg h4]
        simp [chatDictList]
    · rw [if_neg h3] at h
      exact absurd h (by simp)
  · intro db i now cd h
    simp only [restore_chat] at h
    by_cases h3 : db.chats.any (fun c => c.id == i) = true
    · rw [if_pos h3] at h
      obtain ⟨c0, hc0⟩ : ∃ c0, db.chats.find? (fun c => c.id == i) = some c0 := by
        have hsome : (db.chats.find? (fun c => c.id == i)).isSome := by
          rw [List.find?_isSome]
          simpa using List.any_eq_true.mp h3
        exact Option.isSome_iff_exists.mp hsome
      rw [find?_map_update db.chats i
            (fun c => { c with archived := false, updated_at := now }) (fun c => rfl),
          hc0] at h
      simp only [Option.map_some', Option.getD_some] at h
      have hcd := Except.ok.inj h
      rw [← hcd]
      by_cases h4 : (c0.id == i) = true
      · rw [if_pos h4]
        simp [chatDictList]
      · rw [if_neg h4]
        simp [chatDictList]
    · rw [if_neg h3] at h
      exact absurd h (by simp)

/-- Witness for C10: the chat object of GET /api/chats/{id} on a concrete
database carries exactly the six fields. -/
theorem C10_witness :
    ((chatDictDetail ⟨1, "Chat", "", none, false, "T0", "T0"⟩).map Prod.fst
      = ["id", "title", "interaction_id", "last_model", "created_at", "updated_at"]) ∧
    "archived" ∉ (["id", "title", "interaction_id", "last_model", "created_at", "updated_at"]
      : List String) :=
  ⟨C10_chat_object_fields.1 fixDbChat 1 (chatDictDetail ⟨1, "Chat", "", none, false, "T0", "T0"⟩)
     [] (by rfl),
   C10_chat_object_fields.2.2.2.2.2.2.2⟩

end LlmLocalClient
